import Mathlib

/-!
Verification of the expression engine of the graphics-calculator repository
(`src/equations.py`): the `operation`, `equation` and `variable` classes.

Modelling conventions:
* Python numbers (int / float) are modelled as exact rationals `ℚ`.  Every
  claim under verification involves only integer arithmetic; the decimal,
  true-division and exponent paths that produce Python floats are modelled
  by the corresponding exact rational values (or an explicit error where no
  exact rational exists), and are not exercised by any claim.
* Python exceptions are modelled by `Except Err`; each constructor of `Err`
  names the Python exception class it stands for.
* `equation.parse` mutates `self.symbols` and returns `None`; the model is
  state-passing, returning the final symbol list.  The recursion of `parse`
  into parenthesized substrings and of `calculate` into nested equations is
  realised with an explicit fuel argument (`Err.fuelExhausted` is a model
  artifact that no run starting from the fuel bounds used below can reach).
-/

/-- Python exception classes raised by `equations.py`. -/
inductive Err where
  /-- `ValueError(msg)` -/
  | valueError (msg : String)
  /-- `KeyError`: dictionary lookup miss (`kwargs[symbol.symbol]`). -/
  | keyError
  /-- `ZeroDivisionError` from `left/right`. -/
  | zeroDivisionError
  /-- `IndexError` from an out-of-range list subscript. -/
  | indexError
  /-- Model artifact: recursion fuel ran out (unreachable from the bounds used). -/
  | fuelExhausted
deriving DecidableEq, Repr

deriving instance DecidableEq for Except

/-- `allowedOperations`: legal calculation operations in the order they
should be applied (`equations.py` line 7). -/
def allowedOperations : List Char := ['^', '*', '/', '+', '-']

/-- The `operation` class: a single binary operation, identified by its
symbol character. -/
structure operation where
  symbol : Char
deriving DecidableEq, Repr

/-- `operation.__init__(symbol, allowed)`: raises `ValueError` when the
symbol is not in the `allowed` alphabet. -/
def operation.init (allowed : List Char) (symbol : Char) : Except Err operation :=
  if symbol ∈ allowed then Except.ok { symbol := symbol }
  else Except.error (Err.valueError (String.singleton symbol ++ (" is not a supported mathematical operator.")))

/-- One element of `equation.symbols`.  The Python list holds values of the
runtime types `int`/`float` (here `num`), `operation` (`op`), `variable`
(`var`), `equation` (`sub`) — and `NoneType`: line 93-95 of `equations.py`
appends the return value of `equation.parse`, which is `None`. -/
inductive ESym where
  | num (value : ℚ)
  | op (o : operation)
  | var (name : Char)
  | sub (symbols : List ESym)
  | none
deriving Repr

/-- `char in "0123456789."` — membership in the numeric-character set used
by `equation.parse`. -/
def isNumChar (c : Char) : Bool := c.isDigit || c == '.'

/-- Value of a run of decimal digits, most significant first. -/
def digitsVal (l : List Char) : Nat := l.foldl (fun a c => a * 10 + (c.toNat - 48)) 0

/-- Python `int(number)` / `float(number)` as called from `equation.parse`
(`float` when the accumulated string contains a dot, `int` otherwise).
The accumulator always consists of an optional leading minus sign followed
by digits and dots, so only those shapes are handled; an invalid shape
(such as the bare string consisting of only a minus sign, or two dots)
raises `ValueError`, as the Python conversions do.  A decimal string is
modelled by its exact rational value. -/
def parseNum (s : String) : Except Err ℚ :=
  let p : Bool × List Char :=
    match s.data with
    | '-' :: rest => (true, rest)
    | l => (false, l)
  let neg := p.1
  let cs := p.2
  if !cs.isEmpty && cs.all (fun c => c.isDigit) then
    let v : ℚ := (digitsVal cs : ℚ)
    Except.ok (if neg then -v else v)
  else if cs.count '.' == 1 && cs.any (fun c => c.isDigit) && cs.all isNumChar then
    let ip := cs.takeWhile (fun c => c ≠ '.')
    let fp := (cs.dropWhile (fun c => c ≠ '.')).drop 1
    let v : ℚ := (digitsVal ip : ℚ) + (digitsVal fp : ℚ) / ((10 : ℚ) ^ fp.length)
    Except.ok (if neg then -v else v)
  else Except.error (Err.valueError ("could not convert string to a number"))

/-- The per-parse mutable state of `equation.parse`: the symbol list built
so far, the pending numeric-literal accumulator `number`, the parenthesis
nesting counter `subequation` and the accumulated parenthesized substring
`subequationString`. -/
structure PState where
  symbols : List ESym
  number : Option String
  subequation : Nat
  subequationString : String
deriving Repr

/-- The body of the `for char in symbolStr` loop of `equation.parse`
(lines 81-137 of `equations.py`).  `parseSub` is the recursive parse of an
accumulated parenthesized substring (`equation(allowed=self.allowed)
.parse(subequationString)`): its errors propagate, but its result — the
return value of `equation.parse`, which is `None` — is what line 93-95
appends to the symbol list, so the symbol recorded is `ESym.none`. -/
def parseStepF (parseSub : String → Except Err (List ESym)) (allowed : List Char)
    (st : PState) (char : Char) : Except Err PState :=
  if st.subequation > 0 then
    let sube : Nat :=
      if char == '(' then st.subequation + 1
      else if char == ')' then st.subequation - 1
      else st.subequation
    if sube > 0 then
      Except.ok { st with subequation := sube,
                          subequationString := st.subequationString.push char }
    else
      match parseSub st.subequationString with
      | Except.error e => Except.error e
      | Except.ok _ =>
          Except.ok { st with symbols := st.symbols ++ [ESym.none],
                              subequation := 0, subequationString := ("") }
  else if char == '-' && st.number.isNone then
    -- minus sign while no literal is being accumulated: start of a
    -- negative number (lines 100-102)
    Except.ok { st with number := some ("-") }
  else
    -- lines 106-116: finalize or extend the pending numeric literal
    let flushed : Except Err PState :=
      if !(isNumChar char) then
        match st.number with
        | some n =>
            match parseNum n with
            | Except.error e => Except.error e
            | Except.ok q =>
                Except.ok { st with symbols := st.symbols ++ [ESym.num q],
                                    number := Option.none }
        | Option.none => Except.ok { st with number := Option.none }
      else
        match st.number with
        | Option.none => Except.ok { st with number := some (String.singleton char) }
        | some n => Except.ok { st with number := some (n.push char) }
    match flushed with
    | Except.error e => Except.error e
    | Except.ok st =>
        -- line 118-120: operators; note `operation(char)` checks the char
        -- against the module-level default alphabet, not `self.allowed`
        if char ∈ allowed then
          match operation.init allowedOperations char with
          | Except.error e => Except.error e
          | Except.ok o => Except.ok { st with symbols := st.symbols ++ [ESym.op o] }
        else if !(isNumChar char) then
          if char == '(' then Except.ok { st with subequation := 1 }
          else if char == ')' then
            Except.error (Err.valueError ("Close parenthesis must come after an open parenthesis"))
          else if char == ' ' then Except.ok st
          else Except.ok { st with symbols := st.symbols ++ [ESym.var char] }
        else Except.ok st

/-- Run `parseStepF` over the remaining characters of the input. -/
def parseLoopF (parseSub : String → Except Err (List ESym)) (allowed : List Char) :
    PState → List Char → Except Err PState
  | st, [] => Except.ok st
  | st, c :: cs =>
      match parseStepF parseSub allowed st c with
      | Except.error e => Except.error e
      | Except.ok st' => parseLoopF parseSub allowed st' cs

/-- Lines 138-142 of `equations.py`: at end of input, flush any pending
numeric literal. -/
def parseFlush (st : PState) : Except Err (List ESym) :=
  match st.number with
  | some n =>
      match parseNum n with
      | Except.error e => Except.error e
      | Except.ok q => Except.ok (st.symbols ++ [ESym.num q])
  | Option.none => Except.ok st.symbols

/-- `equation.parse(symbolStr)`, fuelled: the fuel bounds the depth of the
recursion into parenthesized substrings (each recursive call receives a
strictly shorter string, so `String.length + 1` fuel always suffices). -/
def parseSymsFuel (allowed : List Char) : Nat → String → Except Err (List ESym)
  | 0, _ => Except.error Err.fuelExhausted
  | Nat.succ fuel, s =>
      match parseLoopF (fun t => parseSymsFuel allowed fuel t) allowed
          { symbols := [], number := Option.none, subequation := 0,
            subequationString := ("") } s.data with
      | Except.error e => Except.error e
      | Except.ok st => parseFlush st

/-- `equation.parse(symbolStr)`: read a string into a symbol list,
replacing the existing one. -/
def equationParse (allowed : List Char) (s : String) : Except Err (List ESym) :=
  parseSymsFuel allowed (s.length + 1) s

/-- Exact rational addition (`Rat.add` is `@[irreducible]`, so the model
uses this kernel-computable form; `qAdd_eq` below proves it is `+`). -/
def qAdd (a b : ℚ) : ℚ := Rat.divInt (a.num * b.den + b.num * a.den) (a.den * b.den)

/-- Exact rational multiplication (`qMul_eq` below proves it is `*`). -/
def qMul (a b : ℚ) : ℚ := Rat.divInt (a.num * b.num) (a.den * b.den)

/-- Exact rational subtraction (`qSub_eq` below proves it is `-`). -/
def qSub (a b : ℚ) : ℚ := Rat.divInt (a.num * b.den - b.num * a.den) (a.den * b.den)

/-- Exact rational division (`qDiv_eq` below proves it is `/` for a
nonzero divisor). -/
def qDiv (a b : ℚ) : ℚ := Rat.divInt (a.num * b.den) (a.den * b.num)

/-- Exact rational power with a natural exponent (`qPowNat_eq` below
proves it is `^`). -/
def qPowNat (l : ℚ) : Nat → ℚ
  | 0 => 1
  | Nat.succ n => qMul (qPowNat l n) l

/-- `left ** right` for rational operands.  Python returns an int for an
integer base and non-negative integer exponent (modelled exactly), raises
`ZeroDivisionError` for `0 ** negative`, computes `1 / left ** -right`
for a negative integer exponent (Python as a float, modelled by the exact
rational), and for a fractional exponent produces a float or complex
result with no exact rational counterpart (a model-level error; no claim
exercises that path). -/
def qpow (l r : ℚ) : Except Err ℚ :=
  if r.den = 1 then
    if 0 ≤ r.num then Except.ok (qPowNat l r.num.toNat)
    else if l = 0 then Except.error Err.zeroDivisionError
    else Except.ok (qDiv 1 (qPowNat l (-r.num).toNat))
  else Except.error (Err.valueError ("non-integer exponent is outside the rational model"))

/-- `operation.calculate(left, right)` (lines 27-42 of `equations.py`),
branching on the operator symbol in the source's order.  `/` is Python
true division (exact on rationals; `ZeroDivisionError` on a zero divisor).
The final branch is `extendCalculate`, which in the base class returns
`None`; it is unreachable for the default alphabet and modelled as an
error. -/
def opCalculate (o : operation) (left right : ℚ) : Except Err ℚ :=
  if o.symbol = '+' then Except.ok (qAdd left right)
  else if o.symbol = '-' then Except.ok (qSub left right)
  else if o.symbol = '/' then
    if right = 0 then Except.error Err.zeroDivisionError
    else Except.ok (qDiv left right)
  else if o.symbol = '*' then Except.ok (qMul left right)
  else if o.symbol = '^' then qpow left right
  else Except.error (Err.valueError ("operation outside the base alphabet"))

/-- The `operation("*")` synthesized by `calculate` for an implicit
multiplication (line 164).  Its constructor checks `"*"` against the
module-level default alphabet, which always succeeds. -/
def mulOperation : operation := { symbol := '*' }

/-- Variable bindings: the `**kwargs` dictionary of `equation.calculate`.
Variable names produced by `parse` are single characters. -/
def Bindings : Type := Char → Option ℚ

/-- The empty bindings dictionary. -/
def bEmpty : Bindings := fun _ => Option.none

/-- Bindings with the single entry `x = q`. -/
def bindX (q : ℚ) : Bindings := fun c => if c = 'x' then some q else Option.none

/-- The value/operator separation pass of `equation.calculate`
(lines 151-170 of `equations.py`), one case per runtime type of the
symbol, in the source's order: first the value branches (a nested
equation is evaluated recursively — `recur`; a literal is taken as-is; a
variable is looked up in the bindings, a miss raising `KeyError`), then
the implicit-multiplication synthesis (`notOperator` set and the symbol
not an operation), then the operator append / `notOperator` update.

The recursive call on a nested equation is `symbol.calculate(kwargs=kwargs)`,
which passes the whole bindings dictionary as a single keyword argument
named `"kwargs"`: inside the nested call the bindings dictionary therefore
has the sole key `"kwargs"`, which no single-character variable name can
match, so the nested evaluation runs with bindings under which every
variable lookup fails. -/
def separateF (recur : List ESym → Bindings → Except Err ℚ) (b : Bindings) :
    List ESym → Bool → List ℚ → List operation → Except Err (List ℚ × List operation)
  | [], _, values, operations => Except.ok (values, operations)
  | ESym.num q :: rest, notOperator, values, operations =>
      separateF recur b rest true (values ++ [q])
        (if notOperator then operations ++ [mulOperation] else operations)
  | ESym.var n :: rest, notOperator, values, operations =>
      match b n with
      | some v =>
          separateF recur b rest true (values ++ [v])
            (if notOperator then operations ++ [mulOperation] else operations)
      | Option.none => Except.error Err.keyError
  | ESym.sub syms :: rest, notOperator, values, operations =>
      match recur syms (fun _ => Option.none) with
      | Except.error e => Except.error e
      | Except.ok v =>
          separateF recur b rest true (values ++ [v])
            (if notOperator then operations ++ [mulOperation] else operations)
  | ESym.op o :: rest, _, values, operations =>
      separateF recur b rest false values (operations ++ [o])
  | ESym.none :: rest, notOperator, values, operations =>
      separateF recur b rest true values
        (if notOperator then operations ++ [mulOperation] else operations)

/-- The inner scan of the collapse loop (lines 180-187): for each pending
operation, if its symbol matches the current operator class, splice
`values[:opIndex] + [op.calculate(values[opIndex], values[opIndex+1])] +
values[opIndex+2:]` (an out-of-range subscript raising `IndexError`),
otherwise advance `opIndex`. -/
def collapseMatching (classSym : Char) : Nat → List ℚ → List operation → Except Err (List ℚ)
  | _, values, [] => Except.ok values
  | opIndex, values, o :: rest =>
      if o.symbol = classSym then
        match values[opIndex]?, values[opIndex + 1]? with
        | some l, some r =>
            match opCalculate o l r with
            | Except.error e => Except.error e
            | Except.ok v =>
                collapseMatching classSym opIndex
                  (values.take opIndex ++ [v] ++ values.drop (opIndex + 2)) rest
        | _, _ => Except.error Err.indexError
      else collapseMatching classSym (opIndex + 1) values rest

/-- The outer collapse loop of `equation.calculate` (lines 177-191): one
pass per operator class in the order table's declared order;  after each
pass the matched operations are removed (`operations.remove(op)` for each
`op` in `finishedOps` removes, by object identity, exactly the operations
whose symbol matched the class, i.e. filters them out).  At the end,
`return values[0]` (an empty list would raise `IndexError`). -/
def collapseAll : List operation → List ℚ → List operation → Except Err ℚ
  | [], values, _ =>
      match values with
      | v :: _ => Except.ok v
      | [] => Except.error Err.indexError
  | oc :: order, values, operations =>
      match collapseMatching oc.symbol 0 values operations with
      | Except.error e => Except.error e
      | Except.ok values' =>
          collapseAll order values'
            (operations.filter (fun o => o.symbol != oc.symbol))

mutual

/-- Nesting depth of a symbol (0 for anything but a nested equation). -/
def ESym.depth : ESym → Nat
  | ESym.sub l => symsDepth l + 1
  | _ => 0

/-- Nesting depth of a symbol list. -/
def symsDepth : List ESym → Nat
  | [] => 0
  | s :: rest => max (ESym.depth s) (symsDepth rest)

end

/-- `equation.calculate(**kwargs)` over a symbol list, fuelled by the
nesting depth of the `sub` symbols (one unit per recursive call into a
nested equation, so `symsDepth + 1` fuel always suffices): separation
pass, the alternation check of lines 171-174, then the collapse loop. -/
def calcSymbolsF (order : List operation) : Nat → List ESym → Bindings → Except Err ℚ
  | 0, _, _ => Except.error Err.fuelExhausted
  | Nat.succ fuel, syms, b =>
      match separateF (fun l bb => calcSymbolsF order fuel l bb) b syms false [] [] with
      | Except.error e => Except.error e
      | Except.ok (values, operations) =>
          if values.length ≠ operations.length + 1 then
            Except.error (Err.valueError ("Equations must end with a number or variable."))
          else collapseAll order values operations

/-- `equation.calculate(**kwargs)`: value of a symbol list under the given
order table and bindings. -/
def equationCalculate (order : List operation) (syms : List ESym) (b : Bindings) :
    Except Err ℚ :=
  calcSymbolsF order (symsDepth syms + 1) syms b

/-- The separation pass as performed by `equationCalculate` on `syms`
(its recursive evaluator applied to the symbol list with the remaining
fuel). -/
def separateSymbols (order : List operation) (syms : List ESym) (b : Bindings) :
    Except Err (List ℚ × List operation) :=
  separateF (fun l bb => calcSymbolsF order (symsDepth syms) l bb) b syms false [] []

/-- `self.order = [operator(op) for op in allowed]` (line 62): each entry
is checked by `operation.__init__` against the module-level default
alphabet (the `allowed` default argument), not the custom one. -/
def mkOrder (allowed : List Char) : Except Err (List operation) :=
  allowed.mapM (fun c => operation.init allowedOperations c)

/-- The order table built from the default alphabet:
exponent, multiply, divide, add, subtract, in that order. -/
def defaultOrder : List operation :=
  [{ symbol := '^' }, { symbol := '*' }, { symbol := '/' },
   { symbol := '+' }, { symbol := '-' }]

/-- The `equation` class: operator alphabet, order table, symbol list. -/
structure equation where
  allowed : List Char
  order : List operation
  symbols : List ESym

/-- `equation(symbolStr=s, allowed=allowed)`: construct the order table
and parse the string. -/
def equation.ofString (allowed : List Char) (s : String) : Except Err equation :=
  match mkOrder allowed with
  | Except.error e => Except.error e
  | Except.ok order =>
      match equationParse allowed s with
      | Except.error e => Except.error e
      | Except.ok syms =>
          Except.ok { allowed := allowed, order := order, symbols := syms }

/-- `equation.calculate(**kwargs)` as a method: the source assigns only
the local variables `notOperator`, `values`, `operations`, never an
attribute of `self`, so it is a pure function of the equation's
components. -/
def equation.calculate (e : equation) (b : Bindings) : Except Err ℚ :=
  equationCalculate e.order e.symbols b

/-- `equation(symbolStr=s).calculate(**b)` with the default alphabet. -/
def evalStr (s : String) (b : Bindings) : Except Err ℚ :=
  match equation.ofString allowedOperations s with
  | Except.error e => Except.error e
  | Except.ok e => e.calculate b

mutual

/-- `str(symbol)` for one symbol: `str` of a number, the operator's or
variable's character, the parenthesized rendering of a nested equation,
and `"None"` for the `None` appended by `parse`.  Integer-valued literals
render via Python `str(int)`; float rendering is outside the rational
model (no claim renders a non-integer literal). -/
def ESym.str : ESym → String
  | ESym.num q => if q.den = 1 then toString q.num else toString q
  | ESym.op o => String.singleton o.symbol
  | ESym.var n => String.singleton n
  | ESym.sub syms => "(" ++ symsStrAux syms ++ ")"
  | ESym.none => ("None")

/-- Concatenation of the renderings of a symbol list. -/
def symsStrAux : List ESym → String
  | [] => ("")
  | s :: rest => ESym.str s ++ symsStrAux rest

end

/-- `equation.__str__` (lines 67-68): the symbol renderings joined and
enclosed in parentheses. -/
def equationStr (syms : List ESym) : String :=
  "(" ++ symsStrAux syms ++ ")"

/-- Runtime type test `type(symbol) == equation`. -/
def ESym.isSubEquation : ESym → Bool
  | ESym.sub _ => true
  | _ => false

theorem qAdd_eq (a b : ℚ) : qAdd a b = a + b := by
  rw [qAdd, Rat.divInt_eq_div]
  field_simp
  nth_rewrite 3 [← Rat.num_div_den a]
  nth_rewrite 3 [← Rat.num_div_den b]
  field_simp

theorem qMul_eq (a b : ℚ) : qMul a b = a * b := by
  rw [qMul, Rat.divInt_eq_div]
  conv_rhs => rw [← Rat.num_div_den a, ← Rat.num_div_den b]
  rw [div_mul_div_comm]
  push_cast
  ring_nf

theorem qSub_eq (a b : ℚ) : qSub a b = a - b := by
  rw [qSub, Rat.divInt_eq_div]
  field_simp
  nth_rewrite 3 [← Rat.num_div_den a]
  nth_rewrite 3 [← Rat.num_div_den b]
  field_simp
  ring

theorem qDiv_eq (a b : ℚ) (hb : b ≠ 0) : qDiv a b = a / b := by
  have hbn : (b.num : ℚ) ≠ 0 := by exact_mod_cast Rat.num_ne_zero.mpr hb
  have had : ((a.den : ℕ) : ℚ) ≠ 0 := Nat.cast_ne_zero.mpr a.den_nz
  have hbd : ((b.den : ℕ) : ℚ) ≠ 0 := Nat.cast_ne_zero.mpr b.den_nz
  rw [qDiv, Rat.divInt_eq_div]
  conv_rhs => rw [← Rat.num_div_den a, ← Rat.num_div_den b]
  push_cast
  field_simp

theorem qPowNat_eq (l : ℚ) (n : Nat) : qPowNat l n = l ^ n := by
  induction n with
  | zero => rw [qPowNat, pow_zero]
  | succ n ih => rw [qPowNat, qMul_eq, ih, pow_succ]

theorem parseNum_dash :
    parseNum ("-") = Except.error (Err.valueError ("could not convert string to a number")) := by
  rfl

theorem mkOrder_default : mkOrder allowedOperations = Except.ok defaultOrder := by
  rfl

/-- If a symbol list contains no nested equations and some variable in it
is unbound, the separation pass of `calculate` raises `KeyError`:  the
only error a step can raise without nested equations is the bindings
lookup, and the first unbound variable reached raises it. -/
theorem separateF_unbound (recur : List ESym → Bindings → Except Err ℚ) (b : Bindings) :
    ∀ (l : List ESym) (no : Bool) (vs : List ℚ) (os : List operation),
      (∀ s ∈ l, s.isSubEquation = false) →
      (∃ c, ESym.var c ∈ l ∧ b c = Option.none) →
      separateF recur b l no vs os = Except.error Err.keyError := by
  intro l
  induction l with
  | nil =>
      intro no vs os _ hex
      obtain ⟨c, hc, _⟩ := hex
      cases hc
  | cons s rest ih =>
      intro no vs os hns hex
      obtain ⟨c, hc, hbc⟩ := hex
      have hnsr : ∀ t ∈ rest, t.isSubEquation = false :=
        fun t ht => hns t (List.mem_cons_of_mem _ ht)
      cases s with
      | num q =>
          have hc' : ESym.var c ∈ rest := by
            rcases List.mem_cons.mp hc with h | h
            · cases h
            · exact h
          rw [separateF]
          exact ih _ _ _ hnsr ⟨c, hc', hbc⟩
      | var n =>
          rcases hbn : b n with _ | v
          · simp [separateF, hbn]
          · have hc' : ESym.var c ∈ rest := by
              rcases List.mem_cons.mp hc with h | h
              · exfalso
                injection h with h'
                rw [h'] at hbc
                rw [hbn] at hbc
                cases hbc
              · exact h
            simp only [separateF, hbn]
            exact ih _ _ _ hnsr ⟨c, hc', hbc⟩
      | sub syms =>
          exfalso
          have := hns _ (List.mem_cons_self _ _)
          simp [ESym.isSubEquation] at this
      | op o =>
          have hc' : ESym.var c ∈ rest := by
            rcases List.mem_cons.mp hc with h | h
            · cases h
            · exact h
          rw [separateF]
          exact ih _ _ _ hnsr ⟨c, hc', hbc⟩
      | none =>
          have hc' : ESym.var c ∈ rest := by
            rcases List.mem_cons.mp hc with h | h
            · cases h
            · exact h
          rw [separateF]
          exact ih _ _ _ hnsr ⟨c, hc', hbc⟩

/-- Claim C1: the spec says parse-then-calculate yields 20 for
"(2+3)*4" and 2 for "((1+1))".  The code instead appends the return
value of the recursive `equation.parse` call — which is `None`, since
`parse` mutates in place and returns nothing — so the parenthesized
sub-expression is lost and `calculate` raises the alternation
`ValueError` for both inputs. -/
theorem claim_C1_nested_parentheses :
    equationParse allowedOperations ("(2+3)*4") =
      Except.ok [ESym.none, ESym.op { symbol := '*' }, ESym.num 4] ∧
    evalStr ("(2+3)*4") bEmpty =
      Except.error (Err.valueError ("Equations must end with a number or variable.")) ∧
    equationParse allowedOperations ("((1+1))") = Except.ok [ESym.none] ∧
    evalStr ("((1+1))") bEmpty =
      Except.error (Err.valueError ("Equations must end with a number or variable.")) :=
  ⟨by rfl, by rfl, by rfl, by rfl⟩

/-- Claim C2: the order table is `[^, *, /, +, -]` and `calculate`
collapses one operator class at a time in that declared order, each class
across the whole expression before the next, left to right within a
class; hence "2+3*4" evaluates to 14, "2*3+4" to 10 and "2+3^2" to 11. -/
theorem claim_C2_collapse_order :
    defaultOrder = [{ symbol := '^' }, { symbol := '*' }, { symbol := '/' },
                    { symbol := '+' }, { symbol := '-' }] ∧
    evalStr ("2+3*4") bEmpty = Except.ok 14 ∧
    evalStr ("2*3+4") bEmpty = Except.ok 10 ∧
    evalStr ("2+3^2") bEmpty = Except.ok 11 :=
  ⟨by rfl, by decide, by decide, by decide⟩

/-- Claim C3: the spec says "2(3+4)" evaluates to 14 by implicit
multiplication.  The synthesis mechanism itself works (third conjunct:
"2x" with x=7 gives 14), but for "2(3+4)" the parenthesized group was
replaced by `None` during parse, so only the value 2 reaches `calculate`
while an implicit multiply is still synthesized, and the alternation
check raises `ValueError` instead of returning 14. -/
theorem claim_C3_implicit_multiplication :
    equationParse allowedOperations ("2(3+4)") = Except.ok [ESym.num 2, ESym.none] ∧
    evalStr ("2(3+4)") bEmpty =
      Except.error (Err.valueError ("Equations must end with a number or variable.")) ∧
    evalStr ("2x") (bindX 7) = Except.ok 14 :=
  ⟨by rfl, by rfl, by decide⟩

/-- Claim C4: the spec's round-trip property fails for every expression:
`str` encloses the symbols in parentheses, and re-parsing any
parenthesized string yields the single symbol `None` (the return value of
the recursive parse), whose evaluation raises the alternation
`ValueError`.  Concretely: the parse of "2+3" evaluates to 5, renders as
"(2+3)", and the re-parse of that rendering fails to evaluate. -/
theorem claim_C4_round_trip :
    equationParse allowedOperations ("2+3") =
      Except.ok [ESym.num 2, ESym.op { symbol := '+' }, ESym.num 3] ∧
    equationCalculate defaultOrder
      [ESym.num 2, ESym.op { symbol := '+' }, ESym.num 3] bEmpty = Except.ok 5 ∧
    equationStr [ESym.num 2, ESym.op { symbol := '+' }, ESym.num 3] = ("(2+3)") ∧
    equationParse allowedOperations ("(2+3)") = Except.ok [ESym.none] ∧
    equationCalculate defaultOrder [ESym.none] bEmpty =
      Except.error (Err.valueError ("Equations must end with a number or variable.")) :=
  ⟨by rfl, by decide, by rfl, by rfl, by rfl⟩

/-- Claim C5: a minus sign read while no numeric literal is being
accumulated starts a negative-number literal instead of acting as a
binary operator (first conjunct, at the level of the parser step
function), and consequently "-5+3" evaluates to -2 and "3--5" to 8. -/
theorem claim_C5_negative_literals :
    (∀ (p : String → Except Err (List ESym)) (st : PState),
        st.subequation = 0 → st.number = Option.none →
        parseStepF p allowedOperations st '-' =
          Except.ok { st with number := some ("-") }) ∧
    evalStr ("-5+3") bEmpty = Except.ok (-2) ∧
    evalStr ("3--5") bEmpty = Except.ok 8 := by
  refine ⟨?_, by decide, by decide⟩
  intro p st h0 hn
  simp [parseStepF, h0, hn]

/-- Witness for the universally quantified part of C5: at the initial
parse state, reading a minus sign only starts the literal accumulator. -/
theorem claim_C5_negative_literals_witness :
    parseStepF (fun _ => Except.ok []) allowedOperations
      { symbols := [], number := Option.none, subequation := 0,
        subequationString := ("") } '-' =
    Except.ok { symbols := [], number := some ("-"), subequation := 0,
                subequationString := ("") } :=
  claim_C5_negative_literals.1 _ _ rfl rfl

/-- Claim C6: `calculate` raises the alternation `ValueError` whenever
the separation pass yields a value count different from the operator
count plus one (first conjunct, for every symbol list, order table and
bindings); in particular "1+" parses successfully but its evaluation
fails with exactly that error. -/
theorem claim_C6_alternation_invariant :
    (∀ (order : List operation) (syms : List ESym) (b : Bindings)
        (values : List ℚ) (operations : List operation),
        separateSymbols order syms b = Except.ok (values, operations) →
        values.length ≠ operations.length + 1 →
        equationCalculate order syms b =
          Except.error (Err.valueError ("Equations must end with a number or variable."))) ∧
    equationParse allowedOperations ("1+") =
      Except.ok [ESym.num 1, ESym.op { symbol := '+' }] ∧
    evalStr ("1+") bEmpty =
      Except.error (Err.valueError ("Equations must end with a number or variable.")) := by
  refine ⟨?_, by rfl, by rfl⟩
  intro order syms b values operations hsep hlen
  unfold separateSymbols at hsep
  unfold equationCalculate
  show calcSymbolsF order (Nat.succ (symsDepth syms)) syms b = _
  rw [calcSymbolsF, hsep]
  simp [hlen]

/-- Witness for the universally quantified part of C6: the parse of "1+"
(one value, one operator) trips the alternation check. -/
theorem claim_C6_alternation_invariant_witness :
    equationCalculate defaultOrder [ESym.num 1, ESym.op { symbol := '+' }] bEmpty =
    Except.error (Err.valueError ("Equations must end with a number or variable.")) :=
  claim_C6_alternation_invariant.1 defaultOrder
    [ESym.num 1, ESym.op { symbol := '+' }] bEmpty
    [1] [{ symbol := '+' }] (by rfl) (by decide)

/-- Claim C7: a closing parenthesis read while the nesting counter is
zero makes `parse` raise (first conjunct: the step function errors from
every such state — with the close-parenthesis `ValueError` when no
literal is pending, or the conversion `ValueError` from flushing an
invalid pending literal first); in particular parsing ")1+1" fails
during parsing with the close-parenthesis error. -/
theorem claim_C7_unmatched_close_paren :
    (∀ (p : String → Except Err (List ESym)) (st : PState),
        st.subequation = 0 →
        ∃ e, parseStepF p allowedOperations st ')' = Except.error e) ∧
    equationParse allowedOperations (")1+1") =
      Except.error (Err.valueError ("Close parenthesis must come after an open parenthesis")) := by
  refine ⟨?_, by rfl⟩
  intro p st h0
  rcases hn : st.number with _ | n
  · exact ⟨Err.valueError ("Close parenthesis must come after an open parenthesis"),
      by simp [parseStepF, h0, hn, isNumChar, allowedOperations]⟩
  · rcases hq : parseNum n with e | q
    · exact ⟨e, by simp [parseStepF, h0, hn, hq, isNumChar]⟩
    · exact ⟨Err.valueError ("Close parenthesis must come after an open parenthesis"),
        by simp [parseStepF, h0, hn, hq, isNumChar, allowedOperations]⟩

/-- Witness for the universally quantified part of C7: from the initial
parse state, reading a bare closing parenthesis is an error. -/
theorem claim_C7_unmatched_close_paren_witness :
    ∃ e, parseStepF (fun _ => Except.ok []) allowedOperations
      { symbols := [], number := Option.none, subequation := 0,
        subequationString := ("") } ')' = Except.error e :=
  claim_C7_unmatched_close_paren.1 _ _ rfl

/-- Claim C8: evaluation fails with `KeyError` whenever some variable in
the symbol sequence has no entry in the bindings (first conjunct, for any
symbol list without nested equations — the only kind `parse` produces —
under any order table and bindings, with no default substituted); in
particular "x+y" with only x bound fails. -/
theorem claim_C8_unbound_variable :
    (∀ (order : List operation) (syms : List ESym) (b : Bindings),
        (∀ s ∈ syms, s.isSubEquation = false) →
        (∃ c, ESym.var c ∈ syms ∧ b c = Option.none) →
        equationCalculate order syms b = Except.error Err.keyError) ∧
    evalStr ("x+y") (bindX 1) = Except.error Err.keyError := by
  refine ⟨?_, by rfl⟩
  intro order syms b hns hex
  unfold equationCalculate
  show calcSymbolsF order (Nat.succ (symsDepth syms)) syms b = _
  rw [calcSymbolsF]
  rw [separateF_unbound _ b syms false [] [] hns hex]

/-- Witness for the universally quantified part of C8: the parse of
"x+y" evaluated with only x bound hits the unbound variable y. -/
theorem claim_C8_unbound_variable_witness :
    equationCalculate defaultOrder
      [ESym.var 'x', ESym.op { symbol := '+' }, ESym.var 'y'] (bindX 1) =
    Except.error Err.keyError :=
  claim_C8_unbound_variable.1 defaultOrder
    [ESym.var 'x', ESym.op { symbol := '+' }, ESym.var 'y'] (bindX 1)
    (by intro s hs; fin_cases hs <;> rfl)
    ⟨'y', by simp, by rfl⟩

/-- Claim C9: `calculate` never assigns to the equation's state (in this
model it is a pure function of the `order` and `symbols` components, as
the source method writes only the local variables `notOperator`,
`values`, `operations`), so the same parsed Expression is reusable under
different bindings: the parse of "x^2+1" evaluates to 10 with x=3 and to
1 with x=0. -/
theorem claim_C9_reusable_expression :
    ∀ e : equation, equation.ofString allowedOperations ("x^2+1") = Except.ok e →
      e.calculate (bindX 3) = Except.ok 10 ∧ e.calculate (bindX 0) = Except.ok 1 := by
  intro e h
  have hv : equation.ofString allowedOperations ("x^2+1") =
      Except.ok { allowed := allowedOperations, order := defaultOrder,
                  symbols := [ESym.var 'x', ESym.op { symbol := '^' }, ESym.num 2,
                              ESym.op { symbol := '+' }, ESym.num 1] } := by rfl
  rw [hv] at h
  injection h with h'
  rw [← h']
  exact ⟨by decide, by decide⟩

/-- Witness for C9: the concrete parsed equation for "x^2+1", evaluated
twice under different bindings. -/
theorem claim_C9_reusable_expression_witness :
    equation.calculate
      { allowed := allowedOperations, order := defaultOrder,
        symbols := [ESym.var 'x', ESym.op { symbol := '^' }, ESym.num 2,
                    ESym.op { symbol := '+' }, ESym.num 1] } (bindX 3) = Except.ok 10 ∧
    equation.calculate
      { allowed := allowedOperations, order := defaultOrder,
        symbols := [ESym.var 'x', ESym.op { symbol := '^' }, ESym.num 2,
                    ESym.op { symbol := '+' }, ESym.num 1] } (bindX 0) = Except.ok 1 :=
  claim_C9_reusable_expression _ (by rfl)

/-- Claim C10: a minus sign that starts a pending literal and is followed
by a character that is neither an ASCII digit nor a dot makes `parse`
raise the conversion `ValueError` for the bare string "-" (first
conjunct, at the level of the parser step function: from any state with
the accumulator holding "-", any non-numeric character errors); in
particular "x-y" and "5 - 3" both fail to parse even though subtraction
between such operands is grammatically valid. -/
theorem claim_C10_dash_then_nonnumeric :
    (∀ (p : String → Except Err (List ESym)) (st : PState) (c : Char),
        st.subequation = 0 → st.number = some ("-") → isNumChar c = false →
        parseStepF p allowedOperations st c =
          Except.error (Err.valueError ("could not convert string to a number"))) ∧
    equationParse allowedOperations ("x-y") =
      Except.error (Err.valueError ("could not convert string to a number")) ∧
    equationParse allowedOperations ("5 - 3") =
      Except.error (Err.valueError ("could not convert string to a number")) := by
  refine ⟨?_, by rfl, by rfl⟩
  intro p st c h0 hn hc
  simp [parseStepF, h0, hn, hc, parseNum_dash]

/-- Witness for the universally quantified part of C10: with "-" pending,
reading the letter y is the conversion error. -/
theorem claim_C10_dash_then_nonnumeric_witness :
    parseStepF (fun _ => Except.ok []) allowedOperations
      { symbols := [], number := some ("-"), subequation := 0,
        subequationString := ("") } 'y' =
    Except.error (Err.valueError ("could not convert string to a number")) :=
  claim_C10_dash_then_nonnumeric.1 _ _ 'y' rfl rfl (by rfl)
